import Mathlib

/-!
Shallow embedding of the MCTP serial framer, transmit engine and control
responder implemented in `src/src/mctp.c` of the iot-foundry-endpoint
repository, together with proofs about its receive, transmit and
control-message behaviour.

Machine integers are modelled as `Nat` with explicit `% 256` where the C
code's `uint8_t` arithmetic can wrap.  The compile-time event slot
(`MCTP_EVENT_TX_ENABLED`, default 0) is disabled, so the corresponding
code is absent from the model, exactly as the preprocessor removes it.
-/

/-! ## Constants (mctp_framer_states.h, mctp.h, mctp.c) -/

def MCTPSER_WAITING_FOR_SYNC : Nat := 0
def MCTPSER_HEADER1 : Nat := 1
def MCTPSER_HEADER2 : Nat := 2
def MCTPSER_BODY : Nat := 3
def MCTPSER_FCS1 : Nat := 4
def MCTPSER_FCS2 : Nat := 5
def MCTPSER_END : Nat := 6
def MCTPSER_ESCAPE : Nat := 7
def MCTPSER_AWAITING_RESPONSE : Nat := 8
def SENDING_RESPONSE : Nat := 9

def BASELINE_TRANSMISSION_UNIT : Nat := 64
def MCTP_BUFFER_SIZE : Nat := BASELINE_TRANSMISSION_UNIT + 6

def OFFSET_MSG_MCTP_PROTOCOL_VERSION : Nat := 1
def OFFSET_BYTE_COUNT : Nat := 2
def OFFSET_MCTP_HEADER_VERSION : Nat := 3
def OFFSET_DESTINATION_ENDPOINT_ID : Nat := 4
def OFFSET_SOURCE_ENDPOINT_ID : Nat := 5
def OFFSET_FLAGS : Nat := 6
def OFFSET_MSG_TYPE : Nat := 7
def OFFSET_CTRL_INSTANCE_ID : Nat := 8
def OFFSET_CTRL_COMMAND_CODE : Nat := 9
def OFFSET_CTRL_COMPLETION_CODE : Nat := 10

def FRAME_CHAR : Nat := 0x7E
def ESCAPE_CHAR : Nat := 0x7D

def CONTROL_MSG_SET_ENDPOINT_ID : Nat := 0x01
def CONTROL_MSG_GET_ENDPOINT_ID : Nat := 0x02
def CONTROL_MSG_GET_MCTP_VERSION_SUPPORT : Nat := 0x04
def CONTROL_MSG_GET_MESSAGE_TYPE_SUPPORT : Nat := 0x05

def CONTROL_COMPLETE_SUCCESS : Nat := 0x00
def CONTROL_COMPLETE_INVALID_DATA : Nat := 0x02
def CONTROL_COMPLETE_UNSUPPORTED_CMD : Nat := 0x05

def INITFCS : Nat := 0xFFFF

/-! ## FCS -/

/-- Modelled from the spec: `calc_fcs` is declared in `src/src/mctp.c`
(line 57) and exercised by `src/tests/test_mctp.c`, but its implementation
lives in `src/fcs.c`, which is not part of the provided source tree.  The
spec (section 4.2) fixes it as the HDLC/PPP FCS-16 running check, seeded
with `0xFFFF`, with the known-answer anchor
`calc_fcs 0xFFFF [1, 2, 3, 4] = 50798`.  One shift-and-conditional-xor
round of the FCS-16 bit loop (polynomial `0x8408`), consuming one data
bit. -/
def fcsRound (p : Nat × Nat) : Nat × Nat :=
  if (p.1 ^^^ p.2) % 2 = 1 then ((p.1 / 2) ^^^ 0x8408, p.2 / 2)
  else (p.1 / 2, p.2 / 2)

/-- Modelled from the spec: FCS-16 update for a single byte - eight rounds
of the bit loop. -/
def fcsByte (f b : Nat) : Nat :=
  (fcsRound (fcsRound (fcsRound (fcsRound
    (fcsRound (fcsRound (fcsRound (fcsRound (f, b))))))))).1

/-- Modelled from the spec: `calc_fcs(fcs, cp, len)` folds the per-byte
FCS-16 update over the buffer contents, starting from the seed. -/
def calc_fcs (f : Nat) (cp : List Nat) : Nat :=
  cp.foldl fcsByte f

/-! ## Module state (mctp.c, file-scope statics) -/

/-- The file-scope mutable state of `mctp.c`: device configuration, the
receive framer registers, the shared frame buffer, and the reentrant
transmit registers.  The buffer is modelled as a total function from
index to byte value; `oob_store` is instrumentation that latches whenever
the receive path stores through `mctp_buffer[buffer_idx++]` with
`buffer_idx` at or beyond the array capacity `MCTP_BUFFER_SIZE` (such a
store is out of bounds in the C program). -/
structure MctpState where
  endpoint_id : Nat
  byte_count : Nat
  buffer_idx : Nat
  rxState : Nat
  mctp_buffer : Nat → Nat
  send_total_len : Nat
  send_idx : Nat
  send_escape_pending : Bool
  send_pending_byte : Nat
  current_tx_slot : Nat
  oob_store : Bool

/-- Point update of the frame buffer (`mctp_buffer[i] = v`). -/
def bufSet (buf : Nat → Nat) (i v : Nat) : Nat → Nat :=
  fun j => if j = i then v else buf j

/-- The receive path's store idiom `mctp_buffer[buffer_idx++] = v`.
`buffer_idx` is a `uint8_t`, so the increment wraps at 256.  The
`oob_store` flag records stores whose index is outside the 70-byte
array. -/
def rxStore (s : MctpState) (v : Nat) : MctpState :=
  { s with
    mctp_buffer := bufSet s.mctp_buffer s.buffer_idx v
    buffer_idx := (s.buffer_idx + 1) % 256
    oob_store := s.oob_store || decide (MCTP_BUFFER_SIZE ≤ s.buffer_idx) }

/-- `mctp_buffer + start` viewed as a list of `len` bytes, as passed to
`calc_fcs`. -/
def bufSlice (buf : Nat → Nat) (start len : Nat) : List Nat :=
  (List.range len).map (fun k => buf (start + k))

/-- `mctp_init()`: all statics are zero-initialized; `mctp_init` resets
`rxState` and `buffer_idx` (the platform call has no model-visible
effect). -/
def mctp_init : MctpState :=
  { endpoint_id := 0
    byte_count := 0
    buffer_idx := 0
    rxState := MCTPSER_WAITING_FOR_SYNC
    mctp_buffer := fun _ => 0
    send_total_len := 0
    send_idx := 0
    send_escape_pending := false
    send_pending_byte := 0
    current_tx_slot := 0
    oob_store := false }

/-- `mctp_is_packet_available()`. -/
def mctp_is_packet_available (s : MctpState) : Bool :=
  s.rxState = MCTPSER_AWAITING_RESPONSE

/-- `validate_rx()` (mctp.c lines 141-161).  Returns the validation
result together with the state, since the function assigns the global
`byte_count` from the length field once the minimum-size check has
passed. -/
def validate_rx (s : MctpState) : Bool × MctpState :=
  if s.buffer_idx < 11 then (false, s)
  else
    let s1 := { s with byte_count := s.mctp_buffer OFFSET_BYTE_COUNT }
    if s1.byte_count ≠ s1.buffer_idx - 6 then (false, s1)
    else
      let fcs := calc_fcs INITFCS (bufSlice s1.mctp_buffer 1 (s1.buffer_idx - 4))
      let msg_fcs := s1.mctp_buffer (s1.buffer_idx - 3) * 256 +
        s1.mctp_buffer (s1.buffer_idx - 2)
      (decide (msg_fcs = fcs), s1)

/-! ## Transmit engine (mctp_send_frame, mctp.c lines 717-874) -/

/-- Result of the byte-emission loop of `mctp_send_frame`: the bytes
written to the platform in this burst, the updated transmit registers,
and whether the cursor reached the end of the frame. -/
structure SendRes where
  out : List Nat
  idx : Nat
  esc : Bool
  pend : Nat
  done : Bool

/-- The `while (1)` emission loop of `mctp_send_frame` for the primary
slot.  `sched` is the sequence of truth values returned by successive
`platform_serial_can_write()` queries; an exhausted schedule reads as
"cannot write".  The loop breaks (done) when the cursor reaches
`total`, returns on a refused write, emits a latched stuffed second
byte first when one is pending (keeping `send_pending_byte`, as the C
does), sends header bytes (index < 3) and trailer bytes (index >
`buf 2 + 3`) raw, and escapes `0x7E`/`0x7D` inside the remaining range.
The escape case (mctp.c lines 781-792) writes the `0x7D` prefix, stores
the stuffed byte in `send_pending_byte`, and then either writes it at
once or latches `send_escape_pending` and returns, depending on a
second `can_write` query; the model expresses that iteration as: emit
the prefix, latch the stuffed byte without advancing the cursor, and
re-enter the loop, whose pending-byte case performs exactly that
query-then-write-or-return step with the same schedule consumption,
outputs and registers. -/
def sendLoop (buf : Nat → Nat) (total : Nat) :
    List Bool → Nat → Bool → Nat → SendRes
  | [], idx, esc, pend =>
    if total ≤ idx then ⟨[], idx, esc, pend, true⟩
    else ⟨[], idx, esc, pend, false⟩
  | false :: _, idx, esc, pend =>
    if total ≤ idx then ⟨[], idx, esc, pend, true⟩
    else ⟨[], idx, esc, pend, false⟩
  | true :: rest, idx, esc, pend =>
    if total ≤ idx then ⟨[], idx, esc, pend, true⟩
    else if esc then
      let r := sendLoop buf total rest (idx + 1) false pend
      ⟨pend :: r.out, r.idx, r.esc, r.pend, r.done⟩
    else
      let data := buf idx
      let body_size := buf OFFSET_BYTE_COUNT
      if idx < 3 ∨ body_size + 3 < idx then
        let r := sendLoop buf total rest (idx + 1) esc pend
        ⟨data :: r.out, r.idx, r.esc, r.pend, r.done⟩
      else if data = FRAME_CHAR ∨ data = ESCAPE_CHAR then
        let r := sendLoop buf total rest idx true (data - 0x20)
        ⟨ESCAPE_CHAR :: r.out, r.idx, r.esc, r.pend, r.done⟩
      else
        let r := sendLoop buf total rest (idx + 1) esc pend
        ⟨data :: r.out, r.idx, r.esc, r.pend, r.done⟩

/-- Run the emission loop on the primary slot and commit its effect on
the state: on completion the send registers are cleared, the framer
returns to `MCTPSER_WAITING_FOR_SYNC` and the active slot is released. -/
def runSendLoop (sched : List Bool) (s : MctpState) : List Nat × MctpState :=
  let r := sendLoop s.mctp_buffer s.send_total_len sched
    s.send_idx s.send_escape_pending s.send_pending_byte
  if r.done then
    (r.out, { s with
      send_idx := 0
      send_total_len := 0
      send_escape_pending := false
      send_pending_byte := r.pend
      rxState := MCTPSER_WAITING_FOR_SYNC
      current_tx_slot := 0 })
  else
    (r.out, { s with
      send_idx := r.idx
      send_escape_pending := r.esc
      send_pending_byte := r.pend })

/-- `mctp_send_frame()` with the event slot compiled out: select the
primary slot (initializing the transmit registers from the frame's
length field and moving the framer to `SENDING_RESPONSE`) when no slot
is active and a packet is available, then drain bytes while the
platform accepts writes. -/
def mctp_send_frame (sched : List Bool) (s : MctpState) : List Nat × MctpState :=
  if s.current_tx_slot = 0 then
    if s.rxState = MCTPSER_AWAITING_RESPONSE then
      let body_size := s.mctp_buffer OFFSET_BYTE_COUNT
      runSendLoop sched
        { s with
          send_total_len := body_size + 6
          send_idx := 0
          send_escape_pending := false
          rxState := SENDING_RESPONSE
          current_tx_slot := 1 }
    else ([], s)
  else if s.current_tx_slot = 1 then
    runSendLoop sched s
  else ([], s)

/-! ## Receive framer (mctp_update, mctp.c lines 523-640) -/

/-- `mctp_update()`.  `inp` is `none` when `platform_serial_has_data()`
is false (the function returns immediately) and `some b` when a byte is
read; the read byte is a `uint8_t`, hence the `% 256`.  `sched` is the
`platform_serial_can_write()` schedule consumed if the call delegates to
`mctp_send_frame`.  Returns the new state and the bytes written to the
platform during the call. -/
def mctp_update (inp : Option Nat) (sched : List Bool) (s : MctpState) :
    MctpState × List Nat :=
  match inp with
  | none => (s, [])
  | some b =>
    let byte_value := b % 256
    if s.rxState = MCTPSER_WAITING_FOR_SYNC then
      if byte_value = FRAME_CHAR then
        let s1 := rxStore { s with byte_count := 0, buffer_idx := 0 } FRAME_CHAR
        ({ s1 with rxState := MCTPSER_HEADER1 }, [])
      else (s, [])
    else if s.rxState = MCTPSER_HEADER1 then
      ({ (rxStore s byte_value) with rxState := MCTPSER_HEADER2 }, [])
    else if s.rxState = MCTPSER_HEADER2 then
      let s1 := { (rxStore s byte_value) with byte_count := byte_value }
      if MCTP_BUFFER_SIZE < s1.byte_count + s1.buffer_idx + 5 then
        ({ s1 with rxState := MCTPSER_WAITING_FOR_SYNC }, [])
      else
        ({ s1 with rxState := MCTPSER_BODY }, [])
    else if s.rxState = MCTPSER_BODY then
      if byte_value = ESCAPE_CHAR then
        ({ s with rxState := MCTPSER_ESCAPE }, [])
      else if byte_value = FRAME_CHAR then
        let s1 := rxStore { s with byte_count := 0, buffer_idx := 0 } FRAME_CHAR
        ({ s1 with rxState := MCTPSER_HEADER1 }, [])
      else
        let s1 := rxStore s byte_value
        let s2 := { s1 with byte_count := (s1.byte_count + 255) % 256 }
        if s2.byte_count = 0 then ({ s2 with rxState := MCTPSER_FCS1 }, [])
        else (s2, [])
    else if s.rxState = MCTPSER_FCS1 then
      ({ (rxStore s byte_value) with rxState := MCTPSER_FCS2 }, [])
    else if s.rxState = MCTPSER_FCS2 then
      ({ (rxStore s byte_value) with rxState := MCTPSER_END }, [])
    else if s.rxState = MCTPSER_END then
      if byte_value ≠ FRAME_CHAR then
        ({ s with rxState := MCTPSER_WAITING_FOR_SYNC }, [])
      else
        let s1 := rxStore s byte_value
        let vr := validate_rx s1
        if vr.1 then
          let dest := vr.2.mctp_buffer OFFSET_DESTINATION_ENDPOINT_ID
          if dest = 0x00 ∨ dest = 0xFF ∨ dest = vr.2.endpoint_id then
            ({ vr.2 with rxState := MCTPSER_AWAITING_RESPONSE }, [])
          else
            ({ vr.2 with rxState := MCTPSER_WAITING_FOR_SYNC }, [])
        else ({ vr.2 with rxState := MCTPSER_WAITING_FOR_SYNC }, [])
    else if s.rxState = MCTPSER_ESCAPE then
      if byte_value = ESCAPE_CHAR - 0x20 ∨ byte_value = FRAME_CHAR - 0x20 then
        let s1 := rxStore s ((byte_value + 0x20) % 256)
        let s2 := { s1 with byte_count := (s1.byte_count + 255) % 256 }
        if s2.byte_count = 0 then ({ s2 with rxState := MCTPSER_FCS1 }, [])
        else ({ s2 with rxState := MCTPSER_BODY }, [])
      else if byte_value = FRAME_CHAR then
        let s1 := rxStore { s with byte_count := 0, buffer_idx := 0 } FRAME_CHAR
        ({ s1 with rxState := MCTPSER_HEADER1 }, [])
      else
        ({ s with rxState := MCTPSER_WAITING_FOR_SYNC }, [])
    else if s.rxState = MCTPSER_AWAITING_RESPONSE ∨ s.rxState = SENDING_RESPONSE then
      let r := mctp_send_frame sched s
      (r.2, r.1)
    else (s, [])

/-- Feed a sequence of input bytes to `mctp_update` one byte at a time
(each with data available and an empty write schedule). -/
def runUpdates (inputs : List Nat) (s : MctpState) : MctpState :=
  inputs.foldl (fun st b => (mctp_update (some b) [] st).1) s

/-! ## Control responder (mctp.c lines 171-496 and 693-706) -/

/-- `process_set_endpoint_id_control_message()` (mctp.c lines 171-247).
Reads the operation byte (masked with `0x02`) and requested EID from the
payload, rewrites the buffer in place into the response, transmits it
with `mctp_send_frame`, and commits `endpoint_id` afterwards when the
completion code is `SUCCESS`. -/
def process_set_endpoint_id_control_message (sched : List Bool)
    (s : MctpState) : MctpState × List Nat :=
  if mctp_is_packet_available s then
    let operation := (s.mctp_buffer OFFSET_CTRL_COMPLETION_CODE) &&& 0x02
    let eid := s.mctp_buffer (OFFSET_CTRL_COMPLETION_CODE + 1)
    let cc_acc : Nat × Nat :=
      if operation = 0x02 then (CONTROL_COMPLETE_INVALID_DATA, 0x10)
      else if operation = 0x03 then (CONTROL_COMPLETE_INVALID_DATA, 0x10)
      else if eid = 0x00 ∨ eid = 0xFF then (CONTROL_COMPLETE_INVALID_DATA, 0x10)
      else (CONTROL_COMPLETE_SUCCESS, 0x00)
    let buf := s.mctp_buffer
    let buf := bufSet buf 10 cc_acc.1
    let buf := bufSet buf 11 cc_acc.2
    let buf := bufSet buf 12 s.endpoint_id
    let buf := bufSet buf 13 0x00
    let buf := bufSet buf OFFSET_CTRL_INSTANCE_ID
      ((buf OFFSET_CTRL_INSTANCE_ID) &&& 0x7F)
    let buf := bufSet buf OFFSET_FLAGS ((buf OFFSET_FLAGS) ^^^ 0x08)
    let buf := bufSet buf OFFSET_FLAGS ((buf OFFSET_FLAGS) ||| 0xC0)
    let source_eid := buf OFFSET_SOURCE_ENDPOINT_ID
    let dest_eid := buf OFFSET_DESTINATION_ENDPOINT_ID
    let buf := bufSet buf OFFSET_SOURCE_ENDPOINT_ID dest_eid
    let buf := bufSet buf OFFSET_DESTINATION_ENDPOINT_ID source_eid
    let buf := bufSet buf OFFSET_BYTE_COUNT (14 - OFFSET_BYTE_COUNT - 1)
    let fcs := calc_fcs INITFCS (bufSlice buf 1 14)
    let buf := bufSet buf 14 (fcs / 256)
    let buf := bufSet buf 15 (fcs % 256)
    let buf := bufSet buf 16 FRAME_CHAR
    let r := mctp_send_frame sched { s with mctp_buffer := buf }
    if cc_acc.1 = CONTROL_COMPLETE_SUCCESS then
      ({ r.2 with endpoint_id := eid }, r.1)
    else (r.2, r.1)
  else (s, [])

/-- `process_get_endpoint_id_control_message()` (mctp.c lines 256-304).
Fills the response payload with the current endpoint id, fixes up the
headers (the Rq bit is cleared twice, as in the source) and sends the
response. -/
def process_get_endpoint_id_control_message (sched : List Bool)
    (s : MctpState) : MctpState × List Nat :=
  if mctp_is_packet_available s then
    let buf := s.mctp_buffer
    let buf := bufSet buf 10 CONTROL_COMPLETE_SUCCESS
    let buf := bufSet buf 11 s.endpoint_id
    let buf := bufSet buf 12 0x00
    let buf := bufSet buf OFFSET_CTRL_INSTANCE_ID
      ((buf OFFSET_CTRL_INSTANCE_ID) &&& 0x7F)
    let source_eid := buf OFFSET_SOURCE_ENDPOINT_ID
    let dest_eid := buf OFFSET_DESTINATION_ENDPOINT_ID
    let buf := bufSet buf OFFSET_SOURCE_ENDPOINT_ID dest_eid
    let buf := bufSet buf OFFSET_DESTINATION_ENDPOINT_ID source_eid
    let buf := bufSet buf OFFSET_BYTE_COUNT (13 - OFFSET_BYTE_COUNT - 1)
    let buf := bufSet buf OFFSET_CTRL_INSTANCE_ID
      ((buf OFFSET_CTRL_INSTANCE_ID) &&& 0x7F)
    let buf := bufSet buf OFFSET_FLAGS ((buf OFFSET_FLAGS) ^^^ 0x08)
    let buf := bufSet buf OFFSET_FLAGS ((buf OFFSET_FLAGS) ||| 0xC0)
    let fcs := calc_fcs INITFCS (bufSlice buf 1 13)
    let buf := bufSet buf 13 (fcs / 256)
    let buf := bufSet buf 14 (fcs % 256)
    let buf := bufSet buf 15 FRAME_CHAR
    let r := mctp_send_frame sched { s with mctp_buffer := buf }
    (r.2, r.1)
  else (s, [])

/-- `process_get_mctp_version_support_control_message()` (mctp.c lines
313-391), without `PLDM_SUPPORT`: message types `0x00` and `0xFF` answer
version 1.3.1; any other type answers `0x80` (message type not
supported) with entry count 0. -/
def process_get_mctp_version_support_control_message (sched : List Bool)
    (s : MctpState) : MctpState × List Nat :=
  if mctp_is_packet_available s then
    let msg_type := s.mctp_buffer OFFSET_CTRL_COMPLETION_CODE
    let buf := s.mctp_buffer
    let body : Nat × (Nat → Nat) :=
      if msg_type = 0x00 then
        let buf := bufSet buf 10 CONTROL_COMPLETE_SUCCESS
        let buf := bufSet buf 11 1
        let buf := bufSet buf 12 0x01
        let buf := bufSet buf 13 0x03
        let buf := bufSet buf 14 0x01
        let buf := bufSet buf 15 0x00
        (16, buf)
      else if msg_type = 0xFF then
        let buf := bufSet buf 10 CONTROL_COMPLETE_SUCCESS
        let buf := bufSet buf 11 1
        let buf := bufSet buf 12 0x01
        let buf := bufSet buf 13 0x03
        let buf := bufSet buf 14 0x01
        let buf := bufSet buf 15 0x00
        (16, buf)
      else
        let buf := bufSet buf 10 0x80
        let buf := bufSet buf 11 0x00
        (12, buf)
    let idx := body.1
    let buf := body.2
    let buf := bufSet buf OFFSET_CTRL_INSTANCE_ID
      ((buf OFFSET_CTRL_INSTANCE_ID) &&& 0x7F)
    let buf := bufSet buf OFFSET_FLAGS ((buf OFFSET_FLAGS) ^^^ 0x08)
    let buf := bufSet buf OFFSET_FLAGS ((buf OFFSET_FLAGS) ||| 0xC0)
    let source_eid := buf OFFSET_SOURCE_ENDPOINT_ID
    let dest_eid := buf OFFSET_DESTINATION_ENDPOINT_ID
    let buf := bufSet buf OFFSET_SOURCE_ENDPOINT_ID dest_eid
    let buf := bufSet buf OFFSET_DESTINATION_ENDPOINT_ID source_eid
    let buf := bufSet buf OFFSET_BYTE_COUNT (idx - OFFSET_BYTE_COUNT - 1)
    let fcs := calc_fcs INITFCS (bufSlice buf 1 idx)
    let buf := bufSet buf idx (fcs / 256)
    let buf := bufSet buf (idx + 1) (fcs % 256)
    let buf := bufSet buf (idx + 2) FRAME_CHAR
    let r := mctp_send_frame sched { s with mctp_buffer := buf }
    (r.2, r.1)
  else (s, [])

/-- `process_get_message_type_support_control_message()` (mctp.c lines
400-447): answers with the four supported control command codes. -/
def process_get_message_type_support_control_message (sched : List Bool)
    (s : MctpState) : MctpState × List Nat :=
  if mctp_is_packet_available s then
    let buf := s.mctp_buffer
    let buf := bufSet buf 10 CONTROL_COMPLETE_SUCCESS
    let buf := bufSet buf 11 4
    let buf := bufSet buf 12 CONTROL_MSG_SET_ENDPOINT_ID
    let buf := bufSet buf 13 CONTROL_MSG_GET_ENDPOINT_ID
    let buf := bufSet buf 14 CONTROL_MSG_GET_MCTP_VERSION_SUPPORT
    let buf := bufSet buf 15 CONTROL_MSG_GET_MESSAGE_TYPE_SUPPORT
    let buf := bufSet buf OFFSET_CTRL_INSTANCE_ID
      ((buf OFFSET_CTRL_INSTANCE_ID) &&& 0x7F)
    let buf := bufSet buf OFFSET_FLAGS ((buf OFFSET_FLAGS) ^^^ 0x08)
    let buf := bufSet buf OFFSET_FLAGS ((buf OFFSET_FLAGS) ||| 0xC0)
    let source_eid := buf OFFSET_SOURCE_ENDPOINT_ID
    let dest_eid := buf OFFSET_DESTINATION_ENDPOINT_ID
    let buf := bufSet buf OFFSET_SOURCE_ENDPOINT_ID dest_eid
    let buf := bufSet buf OFFSET_DESTINATION_ENDPOINT_ID source_eid
    let buf := bufSet buf OFFSET_BYTE_COUNT (16 - OFFSET_BYTE_COUNT - 1)
    let fcs := calc_fcs INITFCS (bufSlice buf 1 16)
    let buf := bufSet buf 16 (fcs / 256)
    let buf := bufSet buf 17 (fcs % 256)
    let buf := bufSet buf 18 FRAME_CHAR
    let r := mctp_send_frame sched { s with mctp_buffer := buf }
    (r.2, r.1)
  else (s, [])

/-- `process_unsupported_control_message()` (mctp.c lines 455-496):
answers completion `UNSUPPORTED_CMD` with no further payload. -/
def process_unsupported_control_message (sched : List Bool)
    (s : MctpState) : MctpState × List Nat :=
  if mctp_is_packet_available s then
    let buf := s.mctp_buffer
    let buf := bufSet buf 10 CONTROL_COMPLETE_UNSUPPORTED_CMD
    let buf := bufSet buf OFFSET_CTRL_INSTANCE_ID
      ((buf OFFSET_CTRL_INSTANCE_ID) &&& 0x7F)
    let buf := bufSet buf OFFSET_FLAGS ((buf OFFSET_FLAGS) ^^^ 0x08)
    let buf := bufSet buf OFFSET_FLAGS ((buf OFFSET_FLAGS) ||| 0xC0)
    let source_eid := buf OFFSET_SOURCE_ENDPOINT_ID
    let dest_eid := buf OFFSET_DESTINATION_ENDPOINT_ID
    let buf := bufSet buf OFFSET_SOURCE_ENDPOINT_ID dest_eid
    let buf := bufSet buf OFFSET_DESTINATION_ENDPOINT_ID source_eid
    let buf := bufSet buf OFFSET_BYTE_COUNT (11 - OFFSET_BYTE_COUNT - 1)
    let fcs := calc_fcs INITFCS (bufSlice buf 1 11)
    let buf := bufSet buf 11 (fcs / 256)
    let buf := bufSet buf 12 (fcs % 256)
    let buf := bufSet buf 13 FRAME_CHAR
    let r := mctp_send_frame sched { s with mctp_buffer := buf }
    (r.2, r.1)
  else (s, [])

/-- `mctp_process_control_message()` (mctp.c lines 693-706): dispatch on
the command-code byte. -/
def mctp_process_control_message (sched : List Bool) (s : MctpState) :
    MctpState × List Nat :=
  if s.mctp_buffer OFFSET_CTRL_COMMAND_CODE = CONTROL_MSG_SET_ENDPOINT_ID then
    process_set_endpoint_id_control_message sched s
  else if s.mctp_buffer OFFSET_CTRL_COMMAND_CODE = CONTROL_MSG_GET_ENDPOINT_ID then
    process_get_endpoint_id_control_message sched s
  else if s.mctp_buffer OFFSET_CTRL_COMMAND_CODE = CONTROL_MSG_GET_MCTP_VERSION_SUPPORT then
    process_get_mctp_version_support_control_message sched s
  else if s.mctp_buffer OFFSET_CTRL_COMMAND_CODE = CONTROL_MSG_GET_MESSAGE_TYPE_SUPPORT then
    process_get_message_type_support_control_message sched s
  else
    process_unsupported_control_message sched s

/-! ## Concrete states used by counterexamples and witnesses -/

/-- A mid-transmission state: the framer is in `SENDING_RESPONSE`, the
primary slot is active, and the cursor is strictly inside the frame. -/
def c6state : MctpState :=
  { mctp_init with
    rxState := SENDING_RESPONSE
    current_tx_slot := 1
    send_total_len := 8
    send_idx := 3 }

/-- A concrete available Set Endpoint ID request (operation `0x01`,
requested EID `0x09`). -/
def c7state : MctpState :=
  { mctp_init with
    rxState := MCTPSER_AWAITING_RESPONSE
    mctp_buffer := fun i =>
      [0x7E, 0x01, 0x07, 0x01, 0x00, 0x08, 0xC8, 0x00,
       0x80, 0x01, 0x01, 0x09].getD i 0 }

/-- A concrete available Set Endpoint ID request (operation `0x01`,
requested EID `0x00`), as in the spec's "Set Endpoint ID invalid"
scenario. -/
def c8state : MctpState :=
  { mctp_init with
    endpoint_id := 0x09
    rxState := MCTPSER_AWAITING_RESPONSE
    mctp_buffer := fun i =>
      [0x7E, 0x01, 0x07, 0x01, 0x09, 0x08, 0xC8, 0x00,
       0x80, 0x01, 0x01, 0x00].getD i 0 }

/-- A concrete available Get Endpoint ID request (command code `0x02`). -/
def c9state : MctpState :=
  { mctp_init with
    rxState := MCTPSER_AWAITING_RESPONSE
    mctp_buffer := fun i =>
      [0x7E, 0x01, 0x07, 0x01, 0x00, 0x08, 0xC8, 0x00,
       0x80, 0x02].getD i 0 }

/-- A concrete framer state in `End`, holding the 12 already-received
bytes of a valid Get Endpoint ID request frame (broadcast destination),
one end flag short of completion. -/
def c1state : MctpState :=
  { mctp_init with
    rxState := MCTPSER_END
    buffer_idx := 12
    mctp_buffer := fun i =>
      [0x7E, 0x01, 0x07, 0x01, 0x00, 0x08, 0xC8, 0x00,
       0x80, 0x02, 0x2B, 0xC1].getD i 0 }

/-- The wire encoding of the byte at index `i` of a frame, as
`mctp_send_frame` emits it: raw in the header range (index < 3) and in
the trailer range (index > `buf 2 + 3`), escaped as `0x7D`, byte minus
`0x20` when it is `0x7E` or `0x7D` in the remaining range. -/
def encByte (buf : Nat → Nat) (i : Nat) : List Nat :=
  if i < 3 ∨ buf OFFSET_BYTE_COUNT + 3 < i then [buf i]
  else if buf i = FRAME_CHAR ∨ buf i = ESCAPE_CHAR then
    [ESCAPE_CHAR, buf i - 0x20]
  else [buf i]

/-- Wire encoding of frame bytes `i..total-1`. -/
def encodeFrom (buf : Nat → Nat) (i total : Nat) : List Nat :=
  if i < total then encByte buf i ++ encodeFrom buf (i + 1) total else []
termination_by total - i

/-- Wire encoding of a whole frame of `total` bytes. -/
def wireEncode (buf : Nat → Nat) (total : Nat) : List Nat :=
  encodeFrom buf 0 total

/-- The bytes still owed by an in-progress transmission: the latched
stuffed byte first when the escape latch is set, then the encoding of
the not-yet-emitted frame bytes. -/
def escRemaining (buf : Nat → Nat) (total idx : Nat) (esc : Bool)
    (pend : Nat) : List Nat :=
  if esc then pend :: encodeFrom buf (idx + 1) total
  else encodeFrom buf idx total

/-- The bytes the transmitter still owes from a state: for an active
primary slot, the remainder of the in-progress frame; for an idle
transmitter with a packet available, the whole frame to come; nothing
otherwise. -/
def txRemaining (s : MctpState) : List Nat :=
  if s.current_tx_slot = 1 then
    escRemaining s.mctp_buffer s.send_total_len s.send_idx
      s.send_escape_pending s.send_pending_byte
  else if s.rxState = MCTPSER_AWAITING_RESPONSE then
    wireEncode s.mctp_buffer (s.mctp_buffer OFFSET_BYTE_COUNT + 6)
  else []

/-- Transmit-state sanity: the active slot is 0 or 1, and a latched
stuffed byte implies the cursor is strictly inside the frame. -/
def TxInv (s : MctpState) : Prop :=
  (s.current_tx_slot = 0 ∨ s.current_tx_slot = 1) ∧
  (s.current_tx_slot = 1 →
    (s.send_escape_pending = true → s.send_idx < s.send_total_len))

/-- Repeatedly call `mctp_send_frame`, one `can_write` schedule per
call, concatenating the emitted bytes. -/
def transmitAll (scheds : List (List Bool)) (s : MctpState) :
    List Nat × MctpState :=
  match scheds with
  | [] => ([], s)
  | σ :: rest =>
    let r := mctp_send_frame σ s
    let r2 := transmitAll rest r.2
    (r.1 ++ r2.1, r2.2)

/-- A frame presented to the transmitter whose FCS high byte (index
`byte_count + 3` = 5) is `0x7E`. -/
def c2state : MctpState :=
  { mctp_init with
    rxState := MCTPSER_AWAITING_RESPONSE
    mctp_buffer := fun i =>
      [0x7E, 0x01, 0x02, 0x11, 0x22, 0x7E, 0x33, 0x7E].getD i 0 }

/-- A frame presented to the transmitter containing an escapable
payload byte (`0x7D`). -/
def c4state : MctpState :=
  { mctp_init with
    rxState := MCTPSER_AWAITING_RESPONSE
    mctp_buffer := fun i =>
      [0x7E, 0x01, 0x02, 0x00, 0xAA, 0x7D, 0xCC, 0x7E].getD i 0 }

/-! ## Helper lemmas -/

/-- `mctp_send_frame` only touches the transmit registers, the framer
state tag and the active-slot selector: the frame buffer is unchanged. -/
theorem mctp_send_frame_buffer (σ : List Bool) (s : MctpState) :
    (mctp_send_frame σ s).2.mctp_buffer = s.mctp_buffer := by
  simp only [mctp_send_frame, runSendLoop]
  split_ifs <;> simp

/-- `mctp_send_frame` does not change the configured endpoint id. -/
theorem mctp_send_frame_endpoint (σ : List Bool) (s : MctpState) :
    (mctp_send_frame σ s).2.endpoint_id = s.endpoint_id := by
  simp only [mctp_send_frame, runSendLoop]
  split_ifs <;> simp

/-! ## Claim theorems -/

set_option maxRecDepth 100000 in
/-- C10: the FCS computation is pure (a fold over the byte list) and
split-and-chain: for every seed `s` and byte lists `A`, `B`,
`calc_fcs (calc_fcs s A) B = calc_fcs s (A ++ B)`; the spec's
known-answer anchor `calc_fcs 0xFFFF [1, 2, 3, 4] = 50798` pins the
modelled polynomial. -/
theorem calc_fcs_chain :
    (∀ (s : Nat) (A B : List Nat),
      calc_fcs (calc_fcs s A) B = calc_fcs s (A ++ B)) ∧
    calc_fcs 0xFFFF [1, 2, 3, 4] = 50798 := by
  refine ⟨fun s A B => ?_, by decide⟩
  simp [calc_fcs, List.foldl_append]

set_option maxRecDepth 100000 in
/-- C3 (code evaluated at the failing input): feeding the start flag, a
version byte and a declared byte-count of zero, followed by 68 ordinary
body bytes, drives the receive path into a store at buffer index 70 -
outside the 70-byte `mctp_buffer` array - because the `uint8_t`
body-bytes-remaining counter wraps from 0 to 255 after the first body
byte.  With only 67 body bytes every store stays in bounds, so the 68th
body byte is exactly the first out-of-bounds store. -/
theorem mctp_update_zero_byte_count_overflow :
    (runUpdates (0x7E :: 0x01 :: 0x00 :: List.replicate 68 0x01)
      mctp_init).oob_store = true ∧
    (runUpdates (0x7E :: 0x01 :: 0x00 :: List.replicate 67 0x01)
      mctp_init).oob_store = false := by
  decide

/-- C5 (counterexample): a frame whose declared byte-count is 63 - at
most the 64-byte baseline transmission unit, and whose full frame of
69 bytes would fit the 70-byte buffer - is nevertheless rejected at the
`Header2` state: after `7E 01 3F` the framer is back in
`WaitingForSync`. -/
theorem header2_btu_rejected_cex :
    (runUpdates [0x7E, 0x01, 63] mctp_init).rxState =
      MCTPSER_WAITING_FOR_SYNC ∧
    63 ≤ BASELINE_TRANSMISSION_UNIT := by
  decide

/-- C5 (amended): at the `Header2` state reached from a fresh start flag
(write cursor 2, about to become 3), the oversize check accepts a
declared byte-count `b` exactly when `b ≤ 62`, i.e. when
`b + 8 ≤ MCTP_BUFFER_SIZE`; any declared byte-count of 63 or more
(including 63 and 64, which are within the baseline transmission unit)
reverts the framer to `WaitingForSync`. -/
theorem header2_oversize_check (s : MctpState) (b : Nat) (sched : List Bool)
    (hst : s.rxState = MCTPSER_HEADER2) (hidx : s.buffer_idx = 2)
    (hb : b < 256) :
    (mctp_update (some b) sched s).1.rxState =
      if b ≤ 62 then MCTPSER_BODY else MCTPSER_WAITING_FOR_SYNC := by
  have hb2 : b % 256 = b := Nat.mod_eq_of_lt hb
  simp only [mctp_update, hb2, hst, hidx, rxStore, MCTPSER_WAITING_FOR_SYNC,
    MCTPSER_HEADER1, MCTPSER_HEADER2, MCTPSER_BODY, MCTP_BUFFER_SIZE,
    BASELINE_TRANSMISSION_UNIT]
  norm_num
  split_ifs <;> first | rfl | omega

/-- C5 witness: instantiating the amended oversize-check theorem at a
concrete `Header2` state with declared byte-count 62. -/
theorem header2_oversize_check_witness :
    ({ mctp_init with rxState := MCTPSER_HEADER2, buffer_idx := 2 } :
      MctpState).rxState = MCTPSER_HEADER2 ∧
    ({ mctp_init with rxState := MCTPSER_HEADER2, buffer_idx := 2 } :
      MctpState).buffer_idx = 2 ∧
    (62 : Nat) < 256 ∧
    (mctp_update (some 62) []
      { mctp_init with rxState := MCTPSER_HEADER2, buffer_idx := 2 }).1.rxState =
      if 62 ≤ 62 then MCTPSER_BODY else MCTPSER_WAITING_FOR_SYNC :=
  ⟨rfl, rfl, by decide,
    header2_oversize_check
      { mctp_init with rxState := MCTPSER_HEADER2, buffer_idx := 2 }
      62 [] rfl rfl (by decide)⟩

/-- C6 (counterexample): with the framer in `Sending` mid-frame and the
platform able to accept writes, a call to `update()` with no incoming
serial byte returns immediately without delegating to the transmitter:
the state (including the transmit cursor) is unchanged and nothing is
written, so a pending response does not complete under repeated
`update()` calls unless further input bytes arrive. -/
theorem update_no_input_no_send_cex :
    mctp_update none [true, true, true, true] c6state = (c6state, []) ∧
    c6state.rxState = SENDING_RESPONSE ∧
    c6state.send_idx < c6state.send_total_len :=
  ⟨rfl, rfl, by decide⟩

/-- C6 (amended): whenever the framer state is `Sending` AND the
platform has an input byte available, `update()` consumes (and
discards) the byte and delegates to `mctp_send_frame`, returning
exactly the transmitter's state and output; without an available input
byte it returns immediately without advancing the transmission. -/
theorem update_sending_delegates (s : MctpState) (b : Nat) (sched : List Bool)
    (hst : s.rxState = SENDING_RESPONSE) :
    (mctp_update (some b) sched s).1 = (mctp_send_frame sched s).2 ∧
    (mctp_update (some b) sched s).2 = (mctp_send_frame sched s).1 ∧
    mctp_update none sched s = (s, []) := by
  refine ⟨?_, ?_, rfl⟩ <;>
    simp [mctp_update, hst, SENDING_RESPONSE, MCTPSER_WAITING_FOR_SYNC,
      MCTPSER_HEADER1, MCTPSER_HEADER2, MCTPSER_BODY, MCTPSER_FCS1,
      MCTPSER_FCS2, MCTPSER_END, MCTPSER_ESCAPE, MCTPSER_AWAITING_RESPONSE]

/-- C6 witness: the amended delegation theorem applied at a concrete
mid-transmission state. -/
theorem update_sending_delegates_witness :
    c6state.rxState = SENDING_RESPONSE ∧
    ((mctp_update (some 0) [true] c6state).1 =
        (mctp_send_frame [true] c6state).2 ∧
      (mctp_update (some 0) [true] c6state).2 =
        (mctp_send_frame [true] c6state).1 ∧
      mctp_update none [true] c6state = (c6state, [])) :=
  ⟨rfl, update_sending_delegates c6state 0 [true] rfl⟩

/-- C7: for every available Set Endpoint ID request whose operation byte
is `0x00` or `0x01` (set / force) and whose requested EID is neither
`0x00` nor `0xFF`, the produced response carries completion code
`SUCCESS` (`0x00`) at offset 10 and acceptance status `0x00` (accepted)
at offset 11, and the handler commits `endpoint_id` to the requested
EID. -/
theorem set_endpoint_id_success (sched : List Bool) (s : MctpState)
    (hA : s.rxState = MCTPSER_AWAITING_RESPONSE)
    (hop : s.mctp_buffer 10 = 0x00 ∨ s.mctp_buffer 10 = 0x01)
    (h0 : s.mctp_buffer 11 ≠ 0x00) (hF : s.mctp_buffer 11 ≠ 0xFF) :
    (process_set_endpoint_id_control_message sched s).1.mctp_buffer 10 =
      CONTROL_COMPLETE_SUCCESS ∧
    (process_set_endpoint_id_control_message sched s).1.mctp_buffer 11 = 0x00 ∧
    (process_set_endpoint_id_control_message sched s).1.endpoint_id =
      s.mctp_buffer 11 := by
  have havail : mctp_is_packet_available s = true := by
    simp [mctp_is_packet_available, hA]
  have hop2 : (s.mctp_buffer 10) &&& 0x02 = 0 := by
    rcases hop with h | h <;> rw [h] <;> decide
  simp only [process_set_endpoint_id_control_message, havail, if_true,
    OFFSET_CTRL_COMPLETION_CODE, OFFSET_CTRL_INSTANCE_ID, OFFSET_FLAGS,
    OFFSET_SOURCE_ENDPOINT_ID, OFFSET_DESTINATION_ENDPOINT_ID,
    OFFSET_BYTE_COUNT, CONTROL_COMPLETE_SUCCESS, CONTROL_COMPLETE_INVALID_DATA,
    hop2]
  simp [h0, hF, mctp_send_frame_buffer, mctp_send_frame_endpoint, bufSet]

/-- C7 witness: the success theorem applied to a concrete available Set
Endpoint ID request with operation `0x01` and EID `0x09`. -/
theorem set_endpoint_id_success_witness :
    c7state.rxState = MCTPSER_AWAITING_RESPONSE ∧
    (c7state.mctp_buffer 10 = 0x00 ∨ c7state.mctp_buffer 10 = 0x01) ∧
    c7state.mctp_buffer 11 ≠ 0x00 ∧ c7state.mctp_buffer 11 ≠ 0xFF ∧
    ((process_set_endpoint_id_control_message [] c7state).1.mctp_buffer 10 =
        CONTROL_COMPLETE_SUCCESS ∧
      (process_set_endpoint_id_control_message [] c7state).1.mctp_buffer 11 =
        0x00 ∧
      (process_set_endpoint_id_control_message [] c7state).1.endpoint_id =
        c7state.mctp_buffer 11) :=
  ⟨rfl, Or.inr rfl, by decide, by decide,
    set_endpoint_id_success [] c7state rfl (Or.inr rfl) (by decide) (by decide)⟩

/-- C8: a Set Endpoint ID request with operation set or force whose
requested EID is `0x00` or `0xFF` is rejected: the response carries
completion `INVALID_DATA` (`0x02`) at offset 10 and acceptance `0x10`
(rejected) at offset 11, and `endpoint_id` is unchanged - so no Set
request ever commits `0x00` or `0xFF`. -/
theorem set_endpoint_id_invalid_eid_rejected (sched : List Bool)
    (s : MctpState) (hA : s.rxState = MCTPSER_AWAITING_RESPONSE)
    (hop : s.mctp_buffer 10 = 0x00 ∨ s.mctp_buffer 10 = 0x01)
    (heid : s.mctp_buffer 11 = 0x00 ∨ s.mctp_buffer 11 = 0xFF) :
    (process_set_endpoint_id_control_message sched s).1.mctp_buffer 10 =
      CONTROL_COMPLETE_INVALID_DATA ∧
    (process_set_endpoint_id_control_message sched s).1.mctp_buffer 11 = 0x10 ∧
    (process_set_endpoint_id_control_message sched s).1.endpoint_id =
      s.endpoint_id := by
  have havail : mctp_is_packet_available s = true := by
    simp [mctp_is_packet_available, hA]
  have hop2 : (s.mctp_buffer 10) &&& 0x02 = 0 := by
    rcases hop with h | h <;> rw [h] <;> decide
  have heid2 : s.mctp_buffer 11 = 0x00 ∨ s.mctp_buffer 11 = 0xFF := heid
  simp only [process_set_endpoint_id_control_message, havail, if_true,
    OFFSET_CTRL_COMPLETION_CODE, OFFSET_CTRL_INSTANCE_ID, OFFSET_FLAGS,
    OFFSET_SOURCE_ENDPOINT_ID, OFFSET_DESTINATION_ENDPOINT_ID,
    OFFSET_BYTE_COUNT, CONTROL_COMPLETE_SUCCESS, CONTROL_COMPLETE_INVALID_DATA,
    hop2]
  simp [heid2, mctp_send_frame_buffer, mctp_send_frame_endpoint, bufSet]

/-- C8 witness: the rejection theorem applied to a concrete available
Set Endpoint ID request with operation `0x01` and EID `0x00`; the
endpoint id (`0x09`) is untouched. -/
theorem set_endpoint_id_invalid_eid_rejected_witness :
    c8state.rxState = MCTPSER_AWAITING_RESPONSE ∧
    (c8state.mctp_buffer 10 = 0x00 ∨ c8state.mctp_buffer 10 = 0x01) ∧
    (c8state.mctp_buffer 11 = 0x00 ∨ c8state.mctp_buffer 11 = 0xFF) ∧
    ((process_set_endpoint_id_control_message [] c8state).1.mctp_buffer 10 =
        CONTROL_COMPLETE_INVALID_DATA ∧
      (process_set_endpoint_id_control_message [] c8state).1.mctp_buffer 11 =
        0x10 ∧
      (process_set_endpoint_id_control_message [] c8state).1.endpoint_id =
        c8state.endpoint_id) :=
  ⟨rfl, Or.inr rfl, Or.inl rfl,
    set_endpoint_id_invalid_eid_rejected [] c8state rfl (Or.inr rfl)
      (Or.inl rfl)⟩

/-- Bit 7 of the flags byte (SOM) is set by `flags |= 0xC0`. -/
theorem flagsFix_testBit7 (x : Nat) :
    ((x ^^^ 0x08) ||| 0xC0).testBit 7 = true := by
  have h : Nat.testBit 0xC0 7 = true := by decide
  simp [Nat.testBit_lor, h]

/-- Bit 6 of the flags byte (EOM) is set by `flags |= 0xC0`. -/
theorem flagsFix_testBit6 (x : Nat) :
    ((x ^^^ 0x08) ||| 0xC0).testBit 6 = true := by
  have h : Nat.testBit 0xC0 6 = true := by decide
  simp [Nat.testBit_lor, h]

/-- Bit 3 of the flags byte (Tag Owner) is inverted by `flags ^= 0x08`
and untouched by `flags |= 0xC0`. -/
theorem flagsFix_testBit3 (x : Nat) :
    ((x ^^^ 0x08) ||| 0xC0).testBit 3 = !(x.testBit 3) := by
  have h1 : Nat.testBit 0xC0 3 = false := by decide
  have h2 : Nat.testBit 0x08 3 = true := by decide
  simp [Nat.testBit_lor, Nat.testBit_xor, h1, h2]

/-- Bit 7 of the instance-id byte (Rq) is cleared by `iid &= ~0x80`. -/
theorem rqClear_testBit7 (x : Nat) :
    (x &&& 0x7F).testBit 7 = false := by
  have h : Nat.testBit 0x7F 7 = false := by decide
  simp [Nat.testBit_land, h]

/-- C9: every response produced by the control responder - for all four
supported commands and the unsupported-command fallback - swaps the
endpoint ids (response destination at offset 4 equals the request
source at offset 5 and vice versa), sets SOM (bit 7) and EOM (bit 6) of
the flags byte, inverts the Tag Owner bit (bit 3) of the flags byte,
and clears the Rq bit (bit 7) of the instance-id byte. -/
theorem control_response_header_fields (sched : List Bool) (s : MctpState)
    (hA : s.rxState = MCTPSER_AWAITING_RESPONSE) :
    (mctp_process_control_message sched s).1.mctp_buffer 4 =
      s.mctp_buffer 5 ∧
    (mctp_process_control_message sched s).1.mctp_buffer 5 =
      s.mctp_buffer 4 ∧
    ((mctp_process_control_message sched s).1.mctp_buffer 6).testBit 7 = true ∧
    ((mctp_process_control_message sched s).1.mctp_buffer 6).testBit 6 = true ∧
    ((mctp_process_control_message sched s).1.mctp_buffer 6).testBit 3 =
      !((s.mctp_buffer 6).testBit 3) ∧
    ((mctp_process_control_message sched s).1.mctp_buffer 8).testBit 7 =
      false := by
  have havail : mctp_is_packet_available s = true := by
    simp [mctp_is_packet_available, hA]
  have t87 : Nat.testBit 8 7 = false := by decide
  have t192a : Nat.testBit 192 7 = true := by decide
  have t86 : Nat.testBit 8 6 = false := by decide
  have t192b : Nat.testBit 192 6 = true := by decide
  have t83 : Nat.testBit 8 3 = true := by decide
  have t192c : Nat.testBit 192 3 = false := by decide
  have t127 : Nat.testBit 127 7 = false := by decide
  simp only [mctp_process_control_message, OFFSET_CTRL_COMMAND_CODE,
    CONTROL_MSG_SET_ENDPOINT_ID, CONTROL_MSG_GET_ENDPOINT_ID,
    CONTROL_MSG_GET_MCTP_VERSION_SUPPORT, CONTROL_MSG_GET_MESSAGE_TYPE_SUPPORT]
  split_ifs
  · -- Set Endpoint ID
    simp only [process_set_endpoint_id_control_message, havail, if_true,
      OFFSET_CTRL_COMPLETION_CODE, OFFSET_CTRL_INSTANCE_ID, OFFSET_FLAGS,
      OFFSET_SOURCE_ENDPOINT_ID, OFFSET_DESTINATION_ENDPOINT_ID,
      OFFSET_BYTE_COUNT]
    split_ifs <;>
      simp [bufSet, mctp_send_frame_buffer, flagsFix_testBit7,
        flagsFix_testBit6, flagsFix_testBit3, rqClear_testBit7,
        t87, t192a, t86, t192b, t83, t192c, t127]
  · -- Get Endpoint ID
    simp only [process_get_endpoint_id_control_message, havail, if_true,
      OFFSET_CTRL_COMPLETION_CODE, OFFSET_CTRL_INSTANCE_ID, OFFSET_FLAGS,
      OFFSET_SOURCE_ENDPOINT_ID, OFFSET_DESTINATION_ENDPOINT_ID,
      OFFSET_BYTE_COUNT]
    simp [bufSet, mctp_send_frame_buffer, flagsFix_testBit7,
      flagsFix_testBit6, flagsFix_testBit3, rqClear_testBit7,
        t87, t192a, t86, t192b, t83, t192c, t127]
  · -- Get MCTP Version Support
    simp only [process_get_mctp_version_support_control_message, havail,
      if_true, OFFSET_CTRL_COMPLETION_CODE, OFFSET_CTRL_INSTANCE_ID,
      OFFSET_FLAGS, OFFSET_SOURCE_ENDPOINT_ID, OFFSET_DESTINATION_ENDPOINT_ID,
      OFFSET_BYTE_COUNT]
    split_ifs <;>
      simp [bufSet, mctp_send_frame_buffer, flagsFix_testBit7,
        flagsFix_testBit6, flagsFix_testBit3, rqClear_testBit7,
        t87, t192a, t86, t192b, t83, t192c, t127]
  · -- Get Message Type Support
    simp only [process_get_message_type_support_control_message, havail,
      if_true, OFFSET_CTRL_COMPLETION_CODE, OFFSET_CTRL_INSTANCE_ID,
      OFFSET_FLAGS, OFFSET_SOURCE_ENDPOINT_ID, OFFSET_DESTINATION_ENDPOINT_ID,
      OFFSET_BYTE_COUNT]
    simp [bufSet, mctp_send_frame_buffer, flagsFix_testBit7,
      flagsFix_testBit6, flagsFix_testBit3, rqClear_testBit7,
        t87, t192a, t86, t192b, t83, t192c, t127]
  · -- unsupported command
    simp only [process_unsupported_control_message, havail, if_true,
      OFFSET_CTRL_COMPLETION_CODE, OFFSET_CTRL_INSTANCE_ID, OFFSET_FLAGS,
      OFFSET_SOURCE_ENDPOINT_ID, OFFSET_DESTINATION_ENDPOINT_ID,
      OFFSET_BYTE_COUNT]
    simp [bufSet, mctp_send_frame_buffer, flagsFix_testBit7,
      flagsFix_testBit6, flagsFix_testBit3, rqClear_testBit7,
        t87, t192a, t86, t192b, t83, t192c, t127]

/-- C9 witness: the header-fields theorem applied to a concrete
available Get Endpoint ID request. -/
theorem control_response_header_fields_witness :
    c9state.rxState = MCTPSER_AWAITING_RESPONSE ∧
    ((mctp_process_control_message [] c9state).1.mctp_buffer 4 =
        c9state.mctp_buffer 5 ∧
      (mctp_process_control_message [] c9state).1.mctp_buffer 5 =
        c9state.mctp_buffer 4 ∧
      ((mctp_process_control_message [] c9state).1.mctp_buffer 6).testBit 7 =
        true ∧
      ((mctp_process_control_message [] c9state).1.mctp_buffer 6).testBit 6 =
        true ∧
      ((mctp_process_control_message [] c9state).1.mctp_buffer 6).testBit 3 =
        !((c9state.mctp_buffer 6).testBit 3) ∧
      ((mctp_process_control_message [] c9state).1.mctp_buffer 8).testBit 7 =
        false) :=
  ⟨rfl, control_response_header_fields [] c9state rfl⟩

/-- `validate_rx` succeeds exactly when the buffer holds at least 11
bytes, the length field matches the received size, and the recomputed
FCS matches the transmitted one. -/
theorem validate_rx_true_iff (s : MctpState) :
    (validate_rx s).1 = true ↔
      (11 ≤ s.buffer_idx ∧
        s.mctp_buffer 2 = s.buffer_idx - 6 ∧
        calc_fcs INITFCS (bufSlice s.mctp_buffer 1 (s.buffer_idx - 4)) =
          s.mctp_buffer (s.buffer_idx - 3) * 256 +
            s.mctp_buffer (s.buffer_idx - 2)) := by
  simp only [validate_rx, OFFSET_BYTE_COUNT]
  split_ifs with h1 h2
  · simp
    omega
  · simp
    intro
    omega
  · simp only [decide_eq_true_eq]
    constructor
    · intro h
      exact ⟨by omega, by omega, h.symm⟩
    · intro h
      exact h.2.2.symm

/-- `validate_rx` changes at most the `byte_count` register. -/
theorem validate_rx_state (s : MctpState) :
    (validate_rx s).2.mctp_buffer = s.mctp_buffer ∧
    (validate_rx s).2.endpoint_id = s.endpoint_id ∧
    (validate_rx s).2.buffer_idx = s.buffer_idx ∧
    (validate_rx s).2.rxState = s.rxState := by
  simp only [validate_rx]
  split_ifs <;> simp

/-- `mctp_update` in the `End` state, as a single equation: a non-flag
byte drops the frame; the flag byte is stored and the frame validated
and filtered by destination EID. -/
theorem mctp_update_end_eq (s : MctpState) (b : Nat) (sched : List Bool)
    (hEnd : s.rxState = MCTPSER_END) :
    mctp_update (some b) sched s =
      if b % 256 ≠ FRAME_CHAR then
        ({ s with rxState := MCTPSER_WAITING_FOR_SYNC }, [])
      else
        let s1 := rxStore s (b % 256)
        let vr := validate_rx s1
        if vr.1 then
          if vr.2.mctp_buffer OFFSET_DESTINATION_ENDPOINT_ID = 0x00 ∨
              vr.2.mctp_buffer OFFSET_DESTINATION_ENDPOINT_ID = 0xFF ∨
              vr.2.mctp_buffer OFFSET_DESTINATION_ENDPOINT_ID =
                vr.2.endpoint_id then
            ({ vr.2 with rxState := MCTPSER_AWAITING_RESPONSE }, [])
          else ({ vr.2 with rxState := MCTPSER_WAITING_FOR_SYNC }, [])
        else ({ vr.2 with rxState := MCTPSER_WAITING_FOR_SYNC }, []) := by
  unfold mctp_update
  rw [hEnd]
  norm_num [MCTPSER_WAITING_FOR_SYNC, MCTPSER_HEADER1, MCTPSER_HEADER2,
    MCTPSER_BODY, MCTPSER_FCS1, MCTPSER_FCS2, MCTPSER_END, MCTPSER_ESCAPE,
    MCTPSER_AWAITING_RESPONSE, SENDING_RESPONSE]

/-- `rxStore` leaves the configured endpoint id unchanged. -/
theorem rxStore_endpoint (s : MctpState) (v : Nat) :
    (rxStore s v).endpoint_id = s.endpoint_id := rfl

/-- C1: in the `End` state, a reception moves the framer to
`PacketAvailable` exactly when the byte is `0x7E` and the completed
buffer (after the end flag is stored) is at least 11 bytes long, its
byte-count field at offset 2 equals the buffer length minus 6, the FCS
recomputed over bytes 1..(length-4) equals the transmitted FCS stored
high-byte-first at offsets length-3 and length-2, and the destination
EID at offset 4 is `0x00`, `0xFF`, or the configured endpoint id; in
every other case it moves to `WaitingForSync`, and no byte is written
to the platform. -/
theorem mctp_update_end_state (s : MctpState) (b : Nat) (sched : List Bool)
    (hEnd : s.rxState = MCTPSER_END) :
    (mctp_update (some b) sched s).2 = [] ∧
    ((mctp_update (some b) sched s).1.rxState = MCTPSER_AWAITING_RESPONSE ∨
      (mctp_update (some b) sched s).1.rxState = MCTPSER_WAITING_FOR_SYNC) ∧
    ((mctp_update (some b) sched s).1.rxState = MCTPSER_AWAITING_RESPONSE ↔
      (b % 256 = 0x7E ∧
        11 ≤ (rxStore s (b % 256)).buffer_idx ∧
        (rxStore s (b % 256)).mctp_buffer 2 =
          (rxStore s (b % 256)).buffer_idx - 6 ∧
        calc_fcs INITFCS (bufSlice (rxStore s (b % 256)).mctp_buffer 1
            ((rxStore s (b % 256)).buffer_idx - 4)) =
          (rxStore s (b % 256)).mctp_buffer
              ((rxStore s (b % 256)).buffer_idx - 3) * 256 +
            (rxStore s (b % 256)).mctp_buffer
              ((rxStore s (b % 256)).buffer_idx - 2) ∧
        ((rxStore s (b % 256)).mctp_buffer 4 = 0x00 ∨
          (rxStore s (b % 256)).mctp_buffer 4 = 0xFF ∨
          (rxStore s (b % 256)).mctp_buffer 4 = s.endpoint_id))) := by
  rw [mctp_update_end_eq s b sched hEnd]
  by_cases h7 : b % 256 = 0x7E
  · have hproj := validate_rx_state (rxStore s 126)
    rw [h7]
    by_cases hval : (validate_rx (rxStore s 126)).1 = true
    · have hcond := (validate_rx_true_iff (rxStore s 126)).mp hval
      by_cases hdest :
          (rxStore s 126).mctp_buffer 4 = 0x00 ∨
          (rxStore s 126).mctp_buffer 4 = 0xFF ∨
          (rxStore s 126).mctp_buffer 4 = s.endpoint_id
      · simp [FRAME_CHAR, OFFSET_DESTINATION_ENDPOINT_ID, hval, hproj.1,
          hproj.2.1, rxStore_endpoint, hdest, MCTPSER_AWAITING_RESPONSE,
          MCTPSER_WAITING_FOR_SYNC]
        exact hcond
      · simp [FRAME_CHAR, OFFSET_DESTINATION_ENDPOINT_ID, hval, hproj.1,
          hproj.2.1, rxStore_endpoint, hdest, MCTPSER_AWAITING_RESPONSE,
          MCTPSER_WAITING_FOR_SYNC]
    · have hvf : (validate_rx (rxStore s 126)).1 = false :=
        Bool.eq_false_iff.mpr hval
      simp [FRAME_CHAR, OFFSET_DESTINATION_ENDPOINT_ID, hvf,
        MCTPSER_AWAITING_RESPONSE, MCTPSER_WAITING_FOR_SYNC]
      intro h1 h2 h3
      exact absurd ((validate_rx_true_iff (rxStore s 126)).mpr ⟨h1, h2, h3⟩)
        hval
  · simp [FRAME_CHAR, h7, MCTPSER_AWAITING_RESPONSE, MCTPSER_WAITING_FOR_SYNC,
      hEnd, MCTPSER_END]

/-- C1 witness: the `End`-state theorem applied to a concrete state one
byte short of a valid frame, receiving the end flag `0x7E`. -/
theorem mctp_update_end_state_witness :
    c1state.rxState = MCTPSER_END ∧
    ((mctp_update (some 0x7E) [] c1state).2 = [] ∧
      ((mctp_update (some 0x7E) [] c1state).1.rxState =
          MCTPSER_AWAITING_RESPONSE ∨
        (mctp_update (some 0x7E) [] c1state).1.rxState =
          MCTPSER_WAITING_FOR_SYNC) ∧
      ((mctp_update (some 0x7E) [] c1state).1.rxState =
          MCTPSER_AWAITING_RESPONSE ↔
        (0x7E % 256 = 0x7E ∧
          11 ≤ (rxStore c1state (0x7E % 256)).buffer_idx ∧
          (rxStore c1state (0x7E % 256)).mctp_buffer 2 =
            (rxStore c1state (0x7E % 256)).buffer_idx - 6 ∧
          calc_fcs INITFCS (bufSlice (rxStore c1state (0x7E % 256)).mctp_buffer
              1 ((rxStore c1state (0x7E % 256)).buffer_idx - 4)) =
            (rxStore c1state (0x7E % 256)).mctp_buffer
                ((rxStore c1state (0x7E % 256)).buffer_idx - 3) * 256 +
              (rxStore c1state (0x7E % 256)).mctp_buffer
                ((rxStore c1state (0x7E % 256)).buffer_idx - 2) ∧
          ((rxStore c1state (0x7E % 256)).mctp_buffer 4 = 0x00 ∨
            (rxStore c1state (0x7E % 256)).mctp_buffer 4 = 0xFF ∨
            (rxStore c1state (0x7E % 256)).mctp_buffer 4 =
              c1state.endpoint_id)))) :=
  ⟨rfl, mctp_update_end_state c1state 0x7E [] rfl⟩

theorem encodeFrom_pos (buf : Nat → Nat) {i total : Nat} (h : i < total) :
    encodeFrom buf i total = encByte buf i ++ encodeFrom buf (i + 1) total := by
  rw [encodeFrom]
  simp [h]

theorem encodeFrom_stop (buf : Nat → Nat) {i total : Nat} (h : total ≤ i) :
    encodeFrom buf i total = [] := by
  rw [encodeFrom]
  simp [Nat.not_lt.mpr h]

theorem sendLoop_nil (buf : Nat → Nat) (total idx : Nat) (esc : Bool)
    (pend : Nat) :
    sendLoop buf total [] idx esc pend =
      if total ≤ idx then ⟨[], idx, esc, pend, true⟩
      else ⟨[], idx, esc, pend, false⟩ := rfl

theorem sendLoop_false (buf : Nat → Nat) (total idx : Nat) (esc : Bool)
    (pend : Nat) (rest : List Bool) :
    sendLoop buf total (false :: rest) idx esc pend =
      if total ≤ idx then ⟨[], idx, esc, pend, true⟩
      else ⟨[], idx, esc, pend, false⟩ := rfl

theorem sendLoop_true (buf : Nat → Nat) (total idx : Nat) (esc : Bool)
    (pend : Nat) (rest : List Bool) :
    sendLoop buf total (true :: rest) idx esc pend =
      if total ≤ idx then ⟨[], idx, esc, pend, true⟩
      else if esc then
        let r := sendLoop buf total rest (idx + 1) false pend
        ⟨pend :: r.out, r.idx, r.esc, r.pend, r.done⟩
      else if idx < 3 ∨ buf OFFSET_BYTE_COUNT + 3 < idx then
        let r := sendLoop buf total rest (idx + 1) esc pend
        ⟨buf idx :: r.out, r.idx, r.esc, r.pend, r.done⟩
      else if buf idx = FRAME_CHAR ∨ buf idx = ESCAPE_CHAR then
        let r := sendLoop buf total rest idx true (buf idx - 0x20)
        ⟨ESCAPE_CHAR :: r.out, r.idx, r.esc, r.pend, r.done⟩
      else
        let r := sendLoop buf total rest (idx + 1) esc pend
        ⟨buf idx :: r.out, r.idx, r.esc, r.pend, r.done⟩ := rfl

theorem sendLoop_chain (buf : Nat → Nat) (total : Nat) (sched : List Bool) :
    ∀ (idx : Nat) (esc : Bool) (pend : Nat), (esc = true → idx < total) →
      ((sendLoop buf total sched idx esc pend).out ++
          escRemaining buf total (sendLoop buf total sched idx esc pend).idx
            (sendLoop buf total sched idx esc pend).esc
            (sendLoop buf total sched idx esc pend).pend =
        escRemaining buf total idx esc pend) ∧
      ((sendLoop buf total sched idx esc pend).esc = true →
        (sendLoop buf total sched idx esc pend).idx < total) ∧
      ((sendLoop buf total sched idx esc pend).done = true →
        total ≤ (sendLoop buf total sched idx esc pend).idx ∧
        (sendLoop buf total sched idx esc pend).esc = false) := by
  induction sched with
  | nil =>
    intro idx esc pend hesc
    rw [sendLoop_nil]
    by_cases h : total ≤ idx
    · simp only [if_pos h]
      refine ⟨by simp, hesc, fun _ => ⟨h, ?_⟩⟩
      cases hc : esc
      · rfl
      · exact absurd (hesc hc) (Nat.not_lt.mpr h)
    · simp only [if_neg h]
      exact ⟨by simp, hesc, by simp⟩
  | cons c rest ih =>
    intro idx esc pend hesc
    cases c
    · rw [sendLoop_false]
      by_cases h : total ≤ idx
      · simp only [if_pos h]
        refine ⟨by simp, hesc, fun _ => ⟨h, ?_⟩⟩
        cases hc : esc
        · rfl
        · exact absurd (hesc hc) (Nat.not_lt.mpr h)
      · simp only [if_neg h]
        exact ⟨by simp, hesc, by simp⟩
    · rw [sendLoop_true]
      by_cases h : total ≤ idx
      · simp only [if_pos h]
        refine ⟨by simp, hesc, fun _ => ⟨h, ?_⟩⟩
        cases hc : esc
        · rfl
        · exact absurd (hesc hc) (Nat.not_lt.mpr h)
      · have hlt : idx < total := Nat.lt_of_not_le h
        cases hc : esc with
        | true =>
          have hr := ih (idx + 1) false pend (by simp)
          simp only [if_neg h, if_pos rfl]
          refine ⟨?_, hr.2.1, hr.2.2⟩
          simp only [escRemaining, if_pos rfl, List.cons_append]
          rw [show (escRemaining buf total (idx + 1) false pend) =
            encodeFrom buf (idx + 1) total from rfl] at hr
          exact congrArg (pend :: ·) hr.1
        | false =>
          by_cases hraw : idx < 3 ∨ buf OFFSET_BYTE_COUNT + 3 < idx
          · have hr := ih (idx + 1) false pend (by simp)
            simp only [if_neg h, hc, Bool.false_eq_true, if_false, if_pos hraw]
            refine ⟨?_, hr.2.1, hr.2.2⟩
            simp only [escRemaining, hc, Bool.false_eq_true, if_false,
              List.cons_append] at hr ⊢
            rw [encodeFrom_pos buf hlt, encByte, if_pos hraw]
            simpa using hr.1
          · by_cases hspec : buf idx = FRAME_CHAR ∨ buf idx = ESCAPE_CHAR
            · have hr := ih idx true (buf idx - 0x20) (fun _ => hlt)
              simp only [if_neg h, hc, Bool.false_eq_true, if_false,
                if_neg hraw, if_pos hspec]
              refine ⟨?_, hr.2.1, hr.2.2⟩
              simp only [escRemaining, hc, Bool.false_eq_true, if_false,
                if_pos rfl, List.cons_append] at hr ⊢
              rw [encodeFrom_pos buf hlt, encByte, if_neg hraw, if_pos hspec]
              simpa using hr.1
            · have hr := ih (idx + 1) false pend (by simp)
              simp only [if_neg h, hc, Bool.false_eq_true, if_false,
                if_neg hraw, if_neg hspec]
              refine ⟨?_, hr.2.1, hr.2.2⟩
              simp only [escRemaining, hc, Bool.false_eq_true, if_false,
                List.cons_append] at hr ⊢
              rw [encodeFrom_pos buf hlt, encByte, if_neg hraw, if_neg hspec]
              simpa using hr.1

theorem runSendLoop_spec (σ : List Bool) (s : MctpState)
    (hslot : s.current_tx_slot = 1)
    (hesc : s.send_escape_pending = true → s.send_idx < s.send_total_len) :
    ((runSendLoop σ s).1 ++ txRemaining (runSendLoop σ s).2 =
      escRemaining s.mctp_buffer s.send_total_len s.send_idx
        s.send_escape_pending s.send_pending_byte) ∧
    TxInv (runSendLoop σ s).2 ∧
    (runSendLoop σ s).2.mctp_buffer = s.mctp_buffer := by
  have hch := sendLoop_chain s.mctp_buffer s.send_total_len σ s.send_idx
    s.send_escape_pending s.send_pending_byte hesc
  simp only [runSendLoop]
  by_cases hdone : (sendLoop s.mctp_buffer s.send_total_len σ s.send_idx
      s.send_escape_pending s.send_pending_byte).done = true
  · obtain ⟨hge, hef⟩ := hch.2.2 hdone
    simp only [hdone, if_true, txRemaining, TxInv]
    norm_num [MCTPSER_WAITING_FOR_SYNC, MCTPSER_AWAITING_RESPONSE]
    have := hch.1
    rw [escRemaining, hef] at this
    simp only [Bool.false_eq_true, if_false] at this
    rw [encodeFrom_stop s.mctp_buffer hge] at this
    simpa using this
  · simp only [hdone, if_false, txRemaining, TxInv, hslot, if_pos rfl]
    norm_num
    exact ⟨hch.1, hch.2.1⟩

theorem mctp_send_frame_spec (σ : List Bool) (s : MctpState) (h : TxInv s) :
    TxInv (mctp_send_frame σ s).2 ∧
    ((mctp_send_frame σ s).1 ++ txRemaining (mctp_send_frame σ s).2 =
      txRemaining s) := by
  obtain ⟨h01, hesc1⟩ := h
  rcases h01 with h0 | h1
  · by_cases hA : s.rxState = MCTPSER_AWAITING_RESPONSE
    · have hrun := runSendLoop_spec σ
        { s with
          send_total_len := s.mctp_buffer OFFSET_BYTE_COUNT + 6
          send_idx := 0
          send_escape_pending := false
          rxState := SENDING_RESPONSE
          current_tx_slot := 1 } rfl (by simp)
      simp only [mctp_send_frame, h0, hA, eq_self_iff_true, if_true]
      refine ⟨hrun.2.1, ?_⟩
      rw [hrun.1]
      simp only [escRemaining, Bool.false_eq_true, if_false, txRemaining, h0,
        hA, wireEncode]
      norm_num
    · simp only [mctp_send_frame, h0, if_pos rfl, hA, if_false]
      exact ⟨⟨Or.inl h0, hesc1⟩, by simp⟩
  · have hrun := runSendLoop_spec σ s h1 (hesc1 h1)
    simp only [mctp_send_frame, h1]
    norm_num
    refine ⟨hrun.2.1, ?_⟩
    rw [hrun.1]
    simp [txRemaining, h1]

theorem transmitAll_spec (scheds : List (List Bool)) (s : MctpState)
    (h : TxInv s) :
    TxInv (transmitAll scheds s).2 ∧
    ((transmitAll scheds s).1 ++ txRemaining (transmitAll scheds s).2 =
      txRemaining s) := by
  induction scheds generalizing s with
  | nil => exact ⟨h, by simp [transmitAll]⟩
  | cons σ rest ih =>
    have h1 := mctp_send_frame_spec σ s h
    have h2 := ih (mctp_send_frame σ s).2 h1.1
    simp only [transmitAll]
    refine ⟨h2.1, ?_⟩
    rw [List.append_assoc, h2.2, h1.2]

theorem sendLoop_alltrue_done (buf : Nat → Nat) (total : Nat) :
    ∀ (m idx : Nat) (esc : Bool) (pend : Nat),
      2 * (total - idx) - (if esc then 1 else 0) ≤ m →
      (sendLoop buf total (List.replicate m true) idx esc pend).done = true := by
  intro m
  induction m with
  | zero =>
    intro idx esc pend hm
    have hle : total ≤ idx := by
      cases esc <;> simp at hm <;> omega
    simp [List.replicate, sendLoop_nil, hle]
  | succ m ih =>
    intro idx esc pend hm
    rw [List.replicate_succ, sendLoop_true]
    by_cases hle : total ≤ idx
    · simp [hle]
    · have hlt : idx < total := Nat.lt_of_not_le hle
      simp only [if_neg hle]
      cases esc with
      | true =>
        simp only [if_pos rfl]
        exact ih (idx + 1) false pend (by simp at hm ⊢; omega)
      | false =>
        simp only [Bool.false_eq_true, if_false]
        by_cases hraw : idx < 3 ∨ buf OFFSET_BYTE_COUNT + 3 < idx
        · simp only [if_pos hraw]
          exact ih (idx + 1) false pend (by simp at hm ⊢; omega)
        · simp only [if_neg hraw]
          by_cases hspec : buf idx = FRAME_CHAR ∨ buf idx = ESCAPE_CHAR
          · simp only [if_pos hspec]
            exact ih idx true (buf idx - 0x20) (by simp at hm ⊢; omega)
          · simp only [if_neg hspec]
            exact ih (idx + 1) false pend (by simp at hm ⊢; omega)

theorem mctp_send_frame_alltrue (s : MctpState)
    (hA : s.rxState = MCTPSER_AWAITING_RESPONSE)
    (h0 : s.current_tx_slot = 0) :
    (mctp_send_frame
        (List.replicate (2 * (s.mctp_buffer OFFSET_BYTE_COUNT + 6)) true)
        s).1 =
      wireEncode s.mctp_buffer (s.mctp_buffer OFFSET_BYTE_COUNT + 6) := by
  have hch := sendLoop_chain s.mctp_buffer
    (s.mctp_buffer OFFSET_BYTE_COUNT + 6)
    (List.replicate (2 * (s.mctp_buffer OFFSET_BYTE_COUNT + 6)) true) 0 false
    s.send_pending_byte (by simp)
  have hdone := sendLoop_alltrue_done s.mctp_buffer
    (s.mctp_buffer OFFSET_BYTE_COUNT + 6)
    (2 * (s.mctp_buffer OFFSET_BYTE_COUNT + 6)) 0 false s.send_pending_byte
    (by omega)
  obtain ⟨hge, hef⟩ := hch.2.2 hdone
  simp only [mctp_send_frame, h0, hA, eq_self_iff_true, if_true, runSendLoop]
  simp only [hdone, if_true]
  have h1 := hch.1
  rw [escRemaining, hef] at h1
  simp only [Bool.false_eq_true, if_false] at h1
  rw [encodeFrom_stop s.mctp_buffer hge, List.append_nil] at h1
  rw [escRemaining] at h1
  simp only [Bool.false_eq_true, if_false] at h1
  rw [wireEncode]
  exact h1

theorem encodeFrom_snoc (buf : Nat → Nat) :
    ∀ (d i n : Nat), n - i = d → i ≤ n →
      encodeFrom buf i (n + 1) = encodeFrom buf i n ++ encByte buf n := by
  intro d
  induction d with
  | zero =>
    intro i n hd hle
    have hin : i = n := by omega
    subst hin
    rw [encodeFrom_pos buf (Nat.lt_succ_self i),
      encodeFrom_stop buf (Nat.le_refl (i + 1)),
      encodeFrom_stop buf (Nat.le_refl i)]
    simp
  | succ d ih =>
    intro i n hd hle
    have hin : i < n := by omega
    rw [encodeFrom_pos buf (by omega : i < n + 1),
      encodeFrom_pos buf hin, ih (i + 1) n (by omega) (by omega),
      List.append_assoc]

theorem wireEncode_bind (buf : Nat → Nat) (total : Nat) :
    wireEncode buf total = (List.range total).flatMap (encByte buf) := by
  induction total with
  | zero => simp [wireEncode, encodeFrom_stop buf (Nat.le_refl 0)]
  | succ n ih =>
    rw [wireEncode, encodeFrom_snoc buf n 0 n rfl (Nat.zero_le n),
      List.range_succ, List.flatMap_append]
    rw [wireEncode] at ih
    simp [ih]

/-- C4: for every frame presented to the transmitter and every schedule
of `platform_serial_can_write` truth values, repeated calls to
`mctp_send_frame` emit exactly the byte sequence of a single call under
an always-true schedule: every partial emission is a prefix of it (the
emitted bytes plus the bytes still owed equal it exactly, so no byte is
lost, duplicated or reordered), on completion the outputs coincide, and
a refused write makes the call return at once with the whole resumption
state - including a latched stuffed second byte - preserved. -/
theorem mctp_send_frame_backpressure_refinement (s : MctpState)
    (hA : s.rxState = MCTPSER_AWAITING_RESPONSE)
    (h0 : s.current_tx_slot = 0) :
    (∀ scheds : List (List Bool),
      (transmitAll scheds s).1 ++ txRemaining (transmitAll scheds s).2 =
        (mctp_send_frame (List.replicate
            (2 * (s.mctp_buffer OFFSET_BYTE_COUNT + 6)) true) s).1) ∧
    (∀ scheds : List (List Bool),
      (transmitAll scheds s).2.current_tx_slot = 0 →
      (transmitAll scheds s).2.rxState ≠ MCTPSER_AWAITING_RESPONSE →
      (transmitAll scheds s).1 =
        (mctp_send_frame (List.replicate
            (2 * (s.mctp_buffer OFFSET_BYTE_COUNT + 6)) true) s).1) ∧
    (∀ (t : MctpState) (σ : List Bool), t.current_tx_slot = 1 →
      t.send_idx < t.send_total_len →
      mctp_send_frame (false :: σ) t = ([], t)) := by
  have halltrue := mctp_send_frame_alltrue s hA h0
  have htx : txRemaining s =
      wireEncode s.mctp_buffer (s.mctp_buffer OFFSET_BYTE_COUNT + 6) := by
    simp [txRemaining, h0, hA]
  have hTxInv : TxInv s := ⟨Or.inl h0, fun h1 => by simp [h0] at h1⟩
  refine ⟨?_, ?_, ?_⟩
  · intro scheds
    have hta := transmitAll_spec scheds s hTxInv
    rw [hta.2, htx, halltrue]
  · intro scheds hslot0 hArx
    have hta := transmitAll_spec scheds s hTxInv
    have hrem : txRemaining (transmitAll scheds s).2 = [] := by
      simp [txRemaining, hslot0, hArx]
    have hout := hta.2
    rw [hrem, List.append_nil, htx] at hout
    rw [hout, halltrue]
  · intro t σ hslot hidx
    simp only [mctp_send_frame, hslot]
    norm_num
    simp only [runSendLoop, sendLoop_false, if_neg (Nat.not_le.mpr hidx)]
    rfl

theorem mctp_send_frame_backpressure_refinement_witness :
    c4state.rxState = MCTPSER_AWAITING_RESPONSE ∧
    c4state.current_tx_slot = 0 ∧
    ((∀ scheds : List (List Bool),
      (transmitAll scheds c4state).1 ++
          txRemaining (transmitAll scheds c4state).2 =
        (mctp_send_frame (List.replicate
            (2 * (c4state.mctp_buffer OFFSET_BYTE_COUNT + 6)) true)
          c4state).1) ∧
    (∀ scheds : List (List Bool),
      (transmitAll scheds c4state).2.current_tx_slot = 0 →
      (transmitAll scheds c4state).2.rxState ≠ MCTPSER_AWAITING_RESPONSE →
      (transmitAll scheds c4state).1 =
        (mctp_send_frame (List.replicate
            (2 * (c4state.mctp_buffer OFFSET_BYTE_COUNT + 6)) true)
          c4state).1) ∧
    (∀ (t : MctpState) (σ : List Bool), t.current_tx_slot = 1 →
      t.send_idx < t.send_total_len →
      mctp_send_frame (false :: σ) t = ([], t))) :=
  ⟨rfl, rfl, mctp_send_frame_backpressure_refinement c4state rfl rfl⟩

/-- C2 (counterexample): the transmitter escapes the FCS high byte.
For the concrete frame whose FCS high byte (at index `byte_count + 3`)
is `0x7E`, the emitted stream contains `0x7D 0x5E` in its place, not
the single raw byte `0x7E` the claim asserts. -/
theorem mctp_send_frame_escapes_fcs_high_cex :
    c2state.mctp_buffer (c2state.mctp_buffer OFFSET_BYTE_COUNT + 3) = 0x7E ∧
    (mctp_send_frame (List.replicate 20 true) c2state).1 =
      [0x7E, 0x01, 0x02, 0x11, 0x22, 0x7D, 0x5E, 0x33, 0x7E] ∧
    (mctp_send_frame (List.replicate 20 true) c2state).1 ≠
      [0x7E, 0x01, 0x02, 0x11, 0x22, 0x7E, 0x33, 0x7E] := by
  refine ⟨rfl, ?_, ?_⟩ <;> decide

/-- C2 (amended): for every frame presented to the transmitter, bytes
at indices 0..2 (header) and at indices strictly greater than
`byte_count + 3` (the FCS low byte and the end flag) are emitted raw,
while bytes at indices 3..`byte_count + 3` - the payload AND the FCS
high byte - are escaped when they equal `0x7E` or `0x7D`. -/
theorem mctp_send_frame_region_encoding (s : MctpState)
    (hA : s.rxState = MCTPSER_AWAITING_RESPONSE)
    (h0 : s.current_tx_slot = 0) :
    (mctp_send_frame (List.replicate
        (2 * (s.mctp_buffer OFFSET_BYTE_COUNT + 6)) true) s).1 =
      (List.range (s.mctp_buffer OFFSET_BYTE_COUNT + 6)).flatMap (fun i =>
        if i < 3 ∨ s.mctp_buffer OFFSET_BYTE_COUNT + 3 < i then
          [s.mctp_buffer i]
        else if s.mctp_buffer i = 0x7E ∨ s.mctp_buffer i = 0x7D then
          [0x7D, s.mctp_buffer i - 0x20]
        else [s.mctp_buffer i]) := by
  rw [mctp_send_frame_alltrue s hA h0, wireEncode_bind]
  rfl

theorem mctp_send_frame_region_encoding_witness :
    c2state.rxState = MCTPSER_AWAITING_RESPONSE ∧
    c2state.current_tx_slot = 0 ∧
    (mctp_send_frame (List.replicate
        (2 * (c2state.mctp_buffer OFFSET_BYTE_COUNT + 6)) true) c2state).1 =
      (List.range (c2state.mctp_buffer OFFSET_BYTE_COUNT + 6)).flatMap
        (fun i =>
          if i < 3 ∨ c2state.mctp_buffer OFFSET_BYTE_COUNT + 3 < i then
            [c2state.mctp_buffer i]
          else if c2state.mctp_buffer i = 0x7E ∨
              c2state.mctp_buffer i = 0x7D then
            [0x7D, c2state.mctp_buffer i - 0x20]
          else [c2state.mctp_buffer i]) :=
  ⟨rfl, rfl, mctp_send_frame_region_encoding c2state rfl rfl⟩
